import Mathlib

/-!
Verification of the train-seat reservation service (`routes.py`).

The embedding models the persistent tables (`Train`, `Booking`, `User`) as
Lean structures with list-valued tables, and each Flask route handler that
the claims concern as a pure function over that state:

* `get_availability` — the `POST /availability` handler;
* `book_seat`        — the `POST /book` handler;
* `get_booking`      — the `GET /booking/<id>` handler;
* `register`         — the `POST /register` handler.

Python integers are modelled as `Int` (seat counts can go negative in the
source, which performs no sign validation), identifiers as `Nat`, strings
as `String`.  Fresh autoincrement row ids, which the database would assign
on commit, are passed in as explicit arguments.
-/

namespace IRCTC

/-- Row of the `Train` table.  `total_seats` is the *mutable* stored field:
`book_seat` decrements it on every successful booking, so after bookings it
no longer equals the capacity the train was created with. -/
structure Train where
  id : Nat
  name : String
  source : String
  destination : String
  total_seats : Int
  deriving DecidableEq, Repr

/-- Row of the `Booking` table; immutable once created. -/
structure Booking where
  id : Nat
  user_id : Nat
  train_id : Nat
  seats_booked : Int
  deriving DecidableEq, Repr

/-- Row of the `User` table. -/
structure User where
  id : Nat
  name : String
  email : String
  password : String
  role : String
  deriving DecidableEq, Repr

/-- The record store: the two tables the Booking Ledger touches. -/
structure DBState where
  trains : List Train
  bookings : List Booking
  deriving DecidableEq, Repr

/-- `db.session.query(db.func.sum(Booking.seats_booked)).filter_by(train_id=tid).scalar() or 0`:
the sum of `seats_booked` over the bookings of train `tid` (`0` when there are
none, matching the `or 0` applied to SQL `NULL`). -/
def sumBooked (bk : List Booking) (tid : Nat) : Int :=
  ((bk.filter (fun b => b.train_id == tid)).map Booking.seats_booked).sum

/-- Sum of `seats_booked` over train `tid`'s bookings in state `s`. -/
def bookedSeats (s : DBState) (tid : Nat) : Int :=
  sumBooked s.bookings tid

/-- An element of the JSON array returned by `get_availability`. -/
structure AvailEntry where
  id : Nat
  name : String
  available_seats : Int
  source : String
  destination : String
  deriving DecidableEq, Repr

/-- Error outcomes of `get_availability`: 400 (missing field) and 404. -/
inductive AvailErr where
  | validationFailed
  | noTrains
  deriving DecidableEq, Repr

/-- The `POST /availability` handler.  Faithful to the source: the handler
computes `booked_seats` for each matching train but then reports the stored
`total_seats` field as `available_seats`, leaving the computed sum unused. -/
def get_availability (s : DBState) (source destination : String) :
    Except AvailErr (List AvailEntry) :=
  if source == "" || destination == "" then
    .error .validationFailed
  else
    let trains := s.trains.filter
      (fun t => t.source == source && t.destination == destination)
    if trains.isEmpty then
      .error .noTrains
    else
      .ok (trains.map (fun train =>
        let booked_seats := sumBooked s.bookings train.id
        { id := train.id, name := train.name,
          available_seats := train.total_seats,
          source := train.source, destination := train.destination }))

/-- Outcome of `book_seat`: 404, 400 ("Not enough seats available"),
or 201 with the new booking id. -/
inductive BookResult where
  | notFound
  | capacityFull
  | success (booking_id : Nat)
  deriving DecidableEq, Repr

/-- The `POST /book` handler.  Returns the post-call state together with the
outcome; the error paths return before any mutation, mirroring the source,
where the inserts and the decrement happen only after the availability check.
Note the check uses the *current* `total_seats` (already reduced by earlier
bookings) minus the booking sum, and the success branch both inserts a
`Booking` row and decrements the train's `total_seats`. -/
def book_seat (s : DBState) (user_id train_id : Nat) (seats : Int)
    (new_id : Nat) : DBState × BookResult :=
  match s.trains.find? (fun t => t.id == train_id) with
  | none => (s, .notFound)
  | some train =>
    let booked_seats := sumBooked s.bookings train.id
    let available_seats := train.total_seats - booked_seats
    if available_seats < seats then
      (s, .capacityFull)
    else
      ({ trains := s.trains.map (fun t =>
           if t.id == train.id then
             { t with total_seats := t.total_seats - seats }
           else t),
         bookings := s.bookings ++ [⟨new_id, user_id, train_id, seats⟩] },
       .success new_id)

/-- Outcome of `get_booking`: 404, a 500 (the source dereferences
`train.name` without a `None` check, so a dangling `train_id` raises), or
the 200 JSON body. -/
inductive GetBookingResult where
  | notFound
  | danglingTrain
  | found (booking_id : Nat) (train_name : String) (seats_booked : Int)
      (source destination : String)
  deriving DecidableEq, Repr

/-- The `GET /booking/<id>` handler: looks the booking up by id *and* the
authenticated user's id in one filter, so another user's booking is
indistinguishable from an absent one. -/
def get_booking (s : DBState) (booking_id user_id : Nat) : GetBookingResult :=
  match s.bookings.find? (fun b => b.id == booking_id && b.user_id == user_id) with
  | none => .notFound
  | some booking =>
    match s.trains.find? (fun t => t.id == booking.train_id) with
    | none => .danglingTrain
    | some train =>
      .found booking.id train.name booking.seats_booked
        train.source train.destination

/-- One `POST /book` request: the authenticated user, the request body's
`train_id` and `seats`, and the row id the database would assign. -/
structure BookCall where
  userId : Nat
  trainId : Nat
  seats : Int
  newId : Nat
  deriving DecidableEq, Repr

/-- Run a sequence of `book_seat` calls, threading the state (a failed call
returns the state unchanged). -/
def applyBooks : DBState → List BookCall → DBState
  | s, [] => s
  | s, c :: cs => applyBooks (book_seat s c.userId c.trainId c.seats c.newId).1 cs

/-- State holding one freshly created train and no bookings. -/
def initState (tid : Nat) (nm src dst : String) (cap : Int) : DBState :=
  { trains := [{ id := tid, name := nm, source := src, destination := dst,
                 total_seats := cap }],
    bookings := [] }

/-- ASCII model of Python's regex class `\w`: letter, digit or underscore. -/
def isWordChar (c : Char) : Bool :=
  c.isAlpha || c.isDigit || c == '_'

/-- The regex class `[\w\.-]`: word character, dot or dash. -/
def isWordDotDash (c : Char) : Bool :=
  isWordChar c || c == '.' || c == '-'

/-- Split a character list at every occurrence of `sep`, like Python's
`str.split` on a single-character separator (an empty input yields one
empty part). -/
def splitOnChar (sep : Char) : List Char → List (List Char)
  | [] => [[]]
  | c :: cs =>
    match splitOnChar sep cs with
    | [] => if c == sep then [[], []] else [[c]]
    | p :: ps => if c == sep then [] :: p :: ps else (c :: p) :: ps

/-- Model of `re.match(email_regex, email)` with
`email_regex = ^[\w\.-]+@[\w\.-]+\.\w{2,}$`, read as a full-string match:
a nonempty run of `[\w\.-]` characters, an `@`, a nonempty run of `[\w\.-]`
characters, a dot, and at least two word characters.  Neither class admits
`@`, so a match forces exactly one `@`; the `\.` of the tail is the last
dot of the domain, since `\w` admits no dot.  (Python's `$` would also
accept one trailing newline; that edge is not modelled.) -/
def is_valid_email (email : String) : Bool :=
  match splitOnChar '@' email.toList with
  | [loc, dom] =>
    !loc.isEmpty && loc.all isWordDotDash &&
    (match (splitOnChar '.' dom).reverse with
     | tld :: rest =>
       2 ≤ tld.length && tld.all isWordChar &&
       rest.all (fun p => p.all (fun c => isWordChar c || c == '-')) &&
       (match rest with
        | [] => false
        | [p] => !p.isEmpty
        | _ :: _ :: _ => true)
     | [] => false)
  | _ => false

/-- The JSON body of a `POST /register` request; `role` is `none` when the
field is absent (`data.get('role', 'user')` then defaults it). -/
structure RegisterRequest where
  name : String
  email : String
  password : String
  role : Option String
  deriving DecidableEq, Repr

/-- Outcome of `register`: the two 400 responses, or 201 having stored the
new `User` row. -/
inductive RegisterResult where
  | invalidEmail
  | emailTaken
  | created (u : User)
  deriving DecidableEq, Repr

/-- The `POST /register` handler.  Password hashing
(`generate_password_hash`) is an external collaborator, passed in as `hash`.
No authentication wraps this route, and the caller-supplied `role` is stored
verbatim, defaulting to `"user"` only when absent. -/
def register (hash : String → String) (users : List User)
    (req : RegisterRequest) (new_id : Nat) : RegisterResult :=
  if !is_valid_email req.email then
    .invalidEmail
  else if users.any (fun u => u.email == req.email) then
    .emailTaken
  else
    .created { id := new_id, name := req.name, email := req.email,
               password := hash req.password, role := req.role.getD "user" }

/-- A train row as it stands after the bookings `bk` have been committed
through `book_seat`: the stored `total_seats` sits below the creation-time
capacity by exactly the booked sum.  (Proof artifact for the reachability
invariant; not itself part of the source.) -/
def shiftTrain (bk : List Booking) (t : Train) : Train :=
  { t with total_seats := t.total_seats - sumBooked bk t.id }

/-! ## Case lemmas for `book_seat` -/

theorem book_seat_of_find_none {s : DBState} {u tid : Nat} {x : Int} {n : Nat}
    (h : s.trains.find? (fun t => t.id == tid) = none) :
    book_seat s u tid x n = (s, .notFound) := by
  simp [book_seat, h]

theorem book_seat_of_no_room {s : DBState} {u tid : Nat} {x : Int} {n : Nat}
    {train : Train}
    (h : s.trains.find? (fun t => t.id == tid) = some train)
    (hav : train.total_seats - sumBooked s.bookings train.id < x) :
    book_seat s u tid x n = (s, .capacityFull) := by
  simp [book_seat, h, hav]

theorem book_seat_of_room {s : DBState} {u tid : Nat} {x : Int} {n : Nat}
    {train : Train}
    (h : s.trains.find? (fun t => t.id == tid) = some train)
    (hav : ¬ train.total_seats - sumBooked s.bookings train.id < x) :
    book_seat s u tid x n =
      ({ trains := s.trains.map (fun t =>
           if t.id == train.id then
             { t with total_seats := t.total_seats - x }
           else t),
         bookings := s.bookings ++ [⟨n, u, tid, x⟩] },
       .success n) := by
  simp [book_seat, h, hav]

theorem sumBooked_append (bk : List Booking) (b : Booking) (tid : Nat) :
    sumBooked (bk ++ [b]) tid
      = sumBooked bk tid + (if b.train_id == tid then b.seats_booked else 0) := by
  by_cases hb : b.train_id == tid <;>
    simp [sumBooked, List.filter_append, hb]

/-! ## Claim theorems -/

/-- C3 (status: the code lacks the check the claim demands).  Booking
`seats = 0` — a non-positive request — on a fresh train with capacity 10
does *not* fail with a `ValidationError`: `book_seat` performs no validation
of `seats` at all, returns success, and stores a `Booking` row with
`seats_booked = 0`. -/
theorem book_zero_seats_creates_record :
    (book_seat (initState 1 "T" "A" "B" 10) 7 1 0 100).2 = .success 100
    ∧ (book_seat (initState 1 "T" "A" "B" 10) 7 1 0 100).1.bookings
        = [{ id := 100, user_id := 7, train_id := 1, seats_booked := 0 }] :=
  ⟨rfl, rfl⟩

/-- C4: the specified scenario on a fresh train of capacity 10:
availability reports 10; booking 4 seats succeeds; availability then
reports 6; a further booking of 7 seats fails with the capacity error and
returns the state unchanged, which still holds exactly one booking of 4
seats. -/
theorem scenario_cap10_book4_then_book7 :
    get_availability (initState 1 "T" "A" "B" 10) "A" "B"
        = .ok [{ id := 1, name := "T", available_seats := 10,
                 source := "A", destination := "B" }]
    ∧ (book_seat (initState 1 "T" "A" "B" 10) 7 1 4 100).2 = .success 100
    ∧ get_availability (book_seat (initState 1 "T" "A" "B" 10) 7 1 4 100).1 "A" "B"
        = .ok [{ id := 1, name := "T", available_seats := 6,
                 source := "A", destination := "B" }]
    ∧ book_seat (book_seat (initState 1 "T" "A" "B" 10) 7 1 4 100).1 8 1 7 101
        = ((book_seat (initState 1 "T" "A" "B" 10) 7 1 4 100).1, .capacityFull)
    ∧ (book_seat (initState 1 "T" "A" "B" 10) 7 1 4 100).1.bookings
        = [{ id := 100, user_id := 7, train_id := 1, seats_booked := 4 }] :=
  ⟨rfl, rfl, rfl, rfl, rfl⟩

/-- C1, counterexample.  Because `book_seat` never validates the sign of
`seats`, a successful booking of `-20` seats followed by a successful
booking of `50` seats on a fresh train of capacity 10 leaves the bookings
summing to 30, above the original capacity: the claim as stated (over all
successful `Book` sequences) is false. -/
theorem booking_sum_exceeds_capacity_cex :
    (book_seat (initState 1 "T" "A" "B" 10) 7 1 (-20) 100).2 = .success 100
    ∧ (book_seat (book_seat (initState 1 "T" "A" "B" 10) 7 1 (-20) 100).1
        7 1 50 101).2 = .success 101
    ∧ ¬ bookedSeats
        (applyBooks (initState 1 "T" "A" "B" 10)
          [⟨7, 1, -20, 100⟩, ⟨7, 1, 50, 101⟩]) 1 ≤ 10 :=
  ⟨rfl, rfl, by decide⟩

/-- C5: a `book_seat` call that fails — with the not-found error or the
capacity error — returns the record store exactly as it was: no partial
mutation survives an error path. -/
theorem book_fail_leaves_state (s : DBState) (u tid : Nat) (x : Int) (n : Nat)
    (h : (book_seat s u tid x n).2 = .notFound
       ∨ (book_seat s u tid x n).2 = .capacityFull) :
    (book_seat s u tid x n).1 = s := by
  cases hf : s.trains.find? (fun t => t.id == tid) with
  | none => rw [book_seat_of_find_none hf]
  | some train =>
    by_cases hav : train.total_seats - sumBooked s.bookings train.id < x
    · rw [book_seat_of_no_room hf hav]
    · rw [book_seat_of_room hf hav] at h
      rcases h with h | h <;> simp at h

/-- Witness for C5 at a concrete failing call: booking on an empty record
store fails and leaves the store untouched. -/
theorem book_fail_leaves_state_witness :
    (book_seat { trains := [], bookings := [] } 1 99 5 100).1
      = { trains := [], bookings := [] } :=
  book_fail_leaves_state { trains := [], bookings := [] } 1 99 5 100
    (Or.inl rfl)

/-- C7: a `book_seat` call naming a `train_id` that no train in the store
carries fails with the not-found error and returns the state unchanged, so
no booking is created and no train is altered. -/
theorem book_unknown_train_not_found (s : DBState) (u tid : Nat) (x : Int)
    (n : Nat) (h : ∀ t ∈ s.trains, t.id ≠ tid) :
    book_seat s u tid x n = (s, .notFound) := by
  have hf : s.trains.find? (fun t => t.id == tid) = none := by
    rw [List.find?_eq_none]
    intro t ht
    simp [h t ht]
  exact book_seat_of_find_none hf

/-- Witness for C7: booking train 2 in a store holding only train 1 fails
with the not-found error and changes nothing. -/
theorem book_unknown_train_not_found_witness :
    book_seat (initState 1 "T" "A" "B" 10) 7 2 3 100
      = (initState 1 "T" "A" "B" 10, .notFound) :=
  book_unknown_train_not_found (initState 1 "T" "A" "B" 10) 7 2 3 100
    (by decide)

/-- C8: when no booking row carries both the requested id and the
requesting user's id — in particular when the booking exists but belongs
to a different user — `get_booking` answers with the not-found error. -/
theorem get_booking_wrong_owner_not_found (s : DBState) (bid uid : Nat)
    (h : ∀ b ∈ s.bookings, ¬ (b.id = bid ∧ b.user_id = uid)) :
    get_booking s bid uid = .notFound := by
  have hf : s.bookings.find? (fun b => b.id == bid && b.user_id == uid)
      = none := by
    rw [List.find?_eq_none]
    intro b hb
    have := h b hb
    simp only [Bool.and_eq_true, beq_iff_eq, not_and]
    intro h1
    exact fun h2 => this ⟨h1, h2⟩
  simp [get_booking, hf]

/-- Witness for C8: booking 5 belongs to user 1, and user 2's lookup of it
reports not found. -/
theorem get_booking_wrong_owner_not_found_witness :
    get_booking
      { trains := [{ id := 1, name := "T", source := "A", destination := "B",
                     total_seats := 10 }],
        bookings := [{ id := 5, user_id := 1, train_id := 1,
                       seats_booked := 3 }] } 5 2 = .notFound :=
  get_booking_wrong_owner_not_found _ 5 2 (by decide)

/-- C10: `register` imposes no restriction and no authentication on the
caller-supplied `role`: whenever the email is well-formed and unused, the
stored `User` carries exactly the request's `role` value (so any caller may
create an admin account), with `"user"` substituted only when the field is
absent. -/
theorem register_role_unrestricted (hash : String → String)
    (users : List User) (req : RegisterRequest) (new_id : Nat)
    (hvalid : is_valid_email req.email = true)
    (hfree : ∀ u ∈ users, u.email ≠ req.email) :
    register hash users req new_id
      = .created { id := new_id, name := req.name, email := req.email,
                   password := hash req.password,
                   role := req.role.getD "user" } := by
  have hany : users.any (fun u => u.email == req.email) = false := by
    rw [List.any_eq_false]
    intro u hu
    simp [hfree u hu]
  simp [register, hvalid, hany]

/-- Witness for C10: an unauthenticated request carrying `role = "admin"`
creates an admin user. -/
theorem register_role_unrestricted_witness :
    register id [] { name := "n", email := "a@b.cd", password := "pw",
                     role := some "admin" } 1
      = .created { id := 1, name := "n", email := "a@b.cd", password := "pw",
                   role := "admin" } :=
  register_role_unrestricted id []
    { name := "n", email := "a@b.cd", password := "pw", role := some "admin" }
    1 (by decide) (by simp)

/-- C9: the availability report never reads the `Booking` table — the sum
it computes is dropped.  First part: two stores differing only in their
bookings yield identical `get_availability` answers.  Second part: every
returned entry's `available_seats` is exactly the stored `total_seats`
field of a matching train row. -/
theorem availability_ignores_bookings :
    (∀ (trains : List Train) (bk1 bk2 : List Booking) (src dst : String),
        get_availability ⟨trains, bk1⟩ src dst
          = get_availability ⟨trains, bk2⟩ src dst)
    ∧ (∀ (s : DBState) (src dst : String) (l : List AvailEntry),
        get_availability s src dst = .ok l →
        ∀ e ∈ l, ∃ t ∈ s.trains,
          e.available_seats = t.total_seats ∧ e.id = t.id) := by
  constructor
  · intro trains bk1 bk2 src dst
    rfl
  · intro s src dst l h e he
    by_cases hc : (src == "" || dst == "") = true
    · simp [get_availability, hc] at h
    · rw [Bool.not_eq_true] at hc
      by_cases hemp : (s.trains.filter
          (fun t => t.source == src && t.destination == dst)).isEmpty = true
      · simp [get_availability, hc, hemp] at h
      · rw [Bool.not_eq_true] at hemp
        simp only [get_availability, hc, hemp, Bool.false_eq_true, if_false,
          Except.ok.injEq] at h
        subst h
        obtain ⟨t, htf, hte⟩ := List.mem_map.mp he
        exact ⟨t, (List.mem_filter.mp htf).1, by rw [← hte], by rw [← hte]⟩

/-- Witness for C9: adding a booking of 4 seats leaves the availability
answer untouched, and the entry for train 1 reports the stored
`total_seats` field. -/
theorem availability_ignores_bookings_witness :
    (get_availability
        ⟨[{ id := 1, name := "T", source := "A", destination := "B",
            total_seats := 10 }], []⟩ "A" "B"
      = get_availability
        ⟨[{ id := 1, name := "T", source := "A", destination := "B",
            total_seats := 10 }],
         [{ id := 5, user_id := 1, train_id := 1, seats_booked := 4 }]⟩ "A" "B")
    ∧ ∃ t ∈ [({ id := 1, name := "T", source := "A", destination := "B",
                total_seats := 10 } : Train)],
        (10 : Int) = t.total_seats ∧ 1 = t.id :=
  ⟨availability_ignores_bookings.1 _ _ _ "A" "B",
   availability_ignores_bookings.2
     ⟨[{ id := 1, name := "T", source := "A", destination := "B",
         total_seats := 10 }], []⟩ "A" "B"
     [{ id := 1, name := "T", available_seats := 10,
        source := "A", destination := "B" }] rfl
     { id := 1, name := "T", available_seats := 10,
       source := "A", destination := "B" } (by decide)⟩

/-- Inductive invariant behind C1: running any sequence of booking calls
with positive seat counts against a store holding the single train `tid`
keeps the booking sum `T` within `[0, cap]` and the stored `total_seats` at
`cap - T`. -/
theorem applyBooks_single_inv (tid : Nat) (nm src dst : String) (cap : Int) :
    ∀ (calls : List BookCall) (s : DBState) (S : Int),
      (∀ c ∈ calls, 1 ≤ c.seats) → 0 ≤ S → S ≤ cap →
      sumBooked s.bookings tid = S →
      s.trains = [{ id := tid, name := nm, source := src, destination := dst,
                    total_seats := cap - S }] →
      ∃ T, 0 ≤ T ∧ T ≤ cap ∧
        sumBooked (applyBooks s calls).bookings tid = T ∧
        (applyBooks s calls).trains
          = [{ id := tid, name := nm, source := src, destination := dst,
               total_seats := cap - T }] := by
  intro calls
  induction calls with
  | nil => exact fun s S _ h0 hc hb ht => ⟨S, h0, hc, hb, ht⟩
  | cons c cs ih =>
    intro s S hpos h0 hc hb ht
    have hcpos : 1 ≤ c.seats := hpos c (List.mem_cons_self c cs)
    have hpos2 : ∀ c2 ∈ cs, 1 ≤ c2.seats :=
      fun c2 h2 => hpos c2 (List.mem_cons_of_mem c h2)
    have hstep : applyBooks s (c :: cs)
        = applyBooks (book_seat s c.userId c.trainId c.seats c.newId).1 cs := rfl
    by_cases htid : c.trainId = tid
    · have hf : s.trains.find? (fun t => t.id == c.trainId)
          = some { id := tid, name := nm, source := src, destination := dst,
                   total_seats := cap - S } := by
        rw [ht]
        exact List.find?_cons_of_pos _ (by simp [htid])
      by_cases hav : cap - S - sumBooked s.bookings tid < c.seats
      · rw [hstep, book_seat_of_no_room hf hav]
        exact ih s S hpos2 h0 hc hb ht
      · rw [hstep, book_seat_of_room hf hav]
        apply ih _ (S + c.seats) hpos2 (by omega) ?_ ?_ ?_
        · rw [hb] at hav
          omega
        · simp only [sumBooked_append, hb, htid, beq_self_eq_true, if_pos]
        · rw [ht]
          simp [sub_sub]
    · have hf : s.trains.find? (fun t => t.id == c.trainId) = none := by
        rw [ht, List.find?_cons_of_neg, List.find?_nil]
        simp
        exact fun h => htid h.symm
      rw [hstep, book_seat_of_find_none hf]
      exact ih s S hpos2 h0 hc hb ht

/-- C1, amended: starting from a freshly created train of nonnegative
capacity, after any sequence of `book_seat` calls in which every call
requests a positive number of seats, the sum of `seats_booked` over the
train's bookings stays at most the original capacity.  (The positivity
hypothesis is forced: the source accepts negative seat requests, and those
break the bound — see the counterexample.) -/
theorem booking_sum_le_capacity_of_pos (tid : Nat) (nm src dst : String)
    (cap : Int) (calls : List BookCall) (hcap : 0 ≤ cap)
    (hpos : ∀ c ∈ calls, 1 ≤ c.seats) :
    bookedSeats (applyBooks (initState tid nm src dst cap) calls) tid ≤ cap := by
  obtain ⟨T, h0, hc, hb, -⟩ :=
    applyBooks_single_inv tid nm src dst cap calls
      (initState tid nm src dst cap) 0 hpos le_rfl hcap
      (by simp [initState, sumBooked]) (by simp [initState])
  unfold bookedSeats
  rw [hb]
  exact hc

/-- Witness for the amended C1: one positive booking of 4 seats on a
capacity-10 train keeps the booking sum within capacity. -/
theorem booking_sum_le_capacity_of_pos_witness :
    bookedSeats (applyBooks (initState 1 "T" "A" "B" 10)
      [⟨7, 1, 4, 100⟩]) 1 ≤ 10 :=
  booking_sum_le_capacity_of_pos 1 "T" "A" "B" 10 [⟨7, 1, 4, 100⟩]
    (by decide) (by decide)

theorem shiftTrain_nil (t : Train) : shiftTrain [] t = t := by
  cases t
  simp [shiftTrain, sumBooked]

theorem map_shiftTrain_nil (ts : List Train) : ts.map (shiftTrain []) = ts := by
  induction ts with
  | nil => rfl
  | cons t ts ih => simp [shiftTrain_nil, ih]

/-- One `book_seat` call preserves the shift invariant: every train row
stays at its creation-time capacity minus the booked sum, because the
success branch decrements `total_seats` by exactly the seats of the
`Booking` row it inserts. -/
theorem book_seat_shift (t0 : List Train) (s : DBState)
    (h : s.trains = t0.map (shiftTrain s.bookings))
    (u tid : Nat) (x : Int) (n : Nat) :
    (book_seat s u tid x n).1.trains
      = t0.map (shiftTrain (book_seat s u tid x n).1.bookings) := by
  cases hf : s.trains.find? (fun t => t.id == tid) with
  | none =>
    rw [book_seat_of_find_none hf]
    exact h
  | some train =>
    by_cases hav : train.total_seats - sumBooked s.bookings train.id < x
    · rw [book_seat_of_no_room hf hav]
      exact h
    · rw [book_seat_of_room hf hav]
      have htr : train.id = tid := by
        have h2 := List.find?_some hf
        simpa using h2
      rw [h, List.map_map]
      apply List.map_congr_left
      intro t ht
      rcases t with ⟨i, tn, tsrc, tdst, tot⟩
      by_cases hid : i = tid
      · subst hid
        simp [shiftTrain, sumBooked_append, htr, sub_sub]
      · simp [shiftTrain, sumBooked_append, htr, hid, Ne.symm hid]

theorem applyBooks_shift (t0 : List Train) (calls : List BookCall) :
    ∀ s : DBState, s.trains = t0.map (shiftTrain s.bookings) →
      (applyBooks s calls).trains
        = t0.map (shiftTrain (applyBooks s calls).bookings) := by
  induction calls with
  | nil => exact fun s h => h
  | cons c cs ih =>
    intro s h
    exact ih _ (book_seat_shift t0 s h c.userId c.trainId c.seats c.newId)

/-- C2: in any state reached from freshly created trains by a sequence of
`book_seat` calls, the availability report for a matching train equals the
train's creation-time capacity minus the sum of `seats_booked` over its
bookings.  (The handler reports the stored `total_seats` field, and on
reachable states that field equals capacity minus the booked sum.) -/
theorem availability_eq_capacity_sub_booked
    (trains0 : List Train) (calls : List BookCall) (t0 : Train)
    (ht0 : t0 ∈ trains0) (hs : ¬ t0.source = "") (hd : ¬ t0.destination = "") :
    ∃ l, get_availability (applyBooks ⟨trains0, []⟩ calls)
          t0.source t0.destination = .ok l ∧
      ({ id := t0.id, name := t0.name,
         available_seats :=
           t0.total_seats
             - bookedSeats (applyBooks ⟨trains0, []⟩ calls) t0.id,
         source := t0.source, destination := t0.destination } : AvailEntry) ∈ l := by
  have hinit : (⟨trains0, []⟩ : DBState).trains
      = trains0.map (shiftTrain (⟨trains0, []⟩ : DBState).bookings) :=
    (map_shiftTrain_nil trains0).symm
  have hshift := applyBooks_shift trains0 calls ⟨trains0, []⟩ hinit
  set s := applyBooks ⟨trains0, []⟩ calls with hs_def
  have hmem : shiftTrain s.bookings t0 ∈ s.trains := by
    rw [hshift]
    exact List.mem_map_of_mem _ ht0
  have hpredmem : shiftTrain s.bookings t0 ∈ s.trains.filter
      (fun t => t.source == t0.source && t.destination == t0.destination) := by
    apply List.mem_filter.mpr
    exact ⟨hmem, by simp [shiftTrain]⟩
  have hcond : (t0.source == "" || t0.destination == "") = false := by
    simp [hs, hd]
  have hemp : (s.trains.filter
      (fun t => t.source == t0.source
        && t.destination == t0.destination)).isEmpty = false := by
    cases hcase : s.trains.filter
        (fun t => t.source == t0.source && t.destination == t0.destination) with
    | nil =>
      rw [hcase] at hpredmem
      simp at hpredmem
    | cons a l => rfl
  refine ⟨(s.trains.filter
      (fun t => t.source == t0.source && t.destination == t0.destination)).map
        (fun train =>
          { id := train.id, name := train.name,
            available_seats := train.total_seats,
            source := train.source, destination := train.destination }),
    ?_, ?_⟩
  · simp only [get_availability, hcond, Bool.false_eq_true, if_false, hemp]
  · apply List.mem_map.mpr
    refine ⟨shiftTrain s.bookings t0, hpredmem, ?_⟩
    simp [shiftTrain, bookedSeats]

/-- Witness for C2: after booking 4 seats on a capacity-10 train, the
availability report for the route carries the entry whose seat count is
`10 - bookedSeats` at that state (that is, 6). -/
theorem availability_eq_capacity_sub_booked_witness :
    ∃ l, get_availability
        (applyBooks ⟨[{ id := 1, name := "T", source := "A",
                        destination := "B", total_seats := 10 }], []⟩
          [⟨7, 1, 4, 100⟩]) "A" "B" = .ok l ∧
      ({ id := 1, name := "T", available_seats := 6,
         source := "A", destination := "B" } : AvailEntry) ∈ l :=
  availability_eq_capacity_sub_booked
    [{ id := 1, name := "T", source := "A", destination := "B",
       total_seats := 10 }] [⟨7, 1, 4, 100⟩]
    { id := 1, name := "T", source := "A", destination := "B",
      total_seats := 10 } (by decide) (by decide) (by decide)

end IRCTC
